import Mathlib

/-!
Shallow embedding of the `breeze-tree-sitter-parsers` validation crate:
the build script `src/validation/build.rs` (artifact locator, metadata
filter, binding generator) and the runtime harness
`src/validation/src/main.rs` (per-grammar smoke test and aggregation).

Rust machine details that matter here: `str::replace("-", "_")` with a
one-character pattern is the character map sending every `-` to `_`;
`str::len()` is the UTF-8 byte length; `Result<T, E>` is `Except E T`;
`Option<T>` is `Option T`.  Filesystem and FFI effects are modelled as
explicit environment records.
-/

namespace Breeze

/-- `struct Grammar { name: String, symbol_name: Option<String> }`
from `build.rs`. -/
structure Grammar where
  name : String
  symbol_name : Option String
deriving DecidableEq, Repr

/-! ### Artifact locator (`get_validation_library_path`, build.rs lines 13-55) -/

/-- The eight Rust target triples that appear as match arms in
`get_validation_library_path` (build.rs lines 31-38). -/
def supportedTargets : List String :=
  ["aarch64-apple-darwin", "x86_64-apple-darwin",
   "aarch64-unknown-linux-gnu", "x86_64-unknown-linux-gnu",
   "aarch64-unknown-linux-musl", "x86_64-unknown-linux-musl",
   "aarch64-pc-windows-gnu", "x86_64-pc-windows-gnu"]

/-- The error message of the `_` arm of the target match
(build.rs line 40): `format!("Unsupported target for validation: {}", target)`. -/
def unsupportedMsg (target : String) : String :=
  "Unsupported target for validation: " ++ target

/-- The error message returned when the dist directory is absent
(build.rs line 26). -/
def distNotFoundMsg : String :=
  "dist directory not found. Run `npm run build` first."

/-- The target-triple match of build.rs lines 30-42: a Rust `match` on
string literals, i.e. an equality chain.  `Except.ok` carries the
`expected_filename`, `Except.error` the `Err` of the `_` arm. -/
def expected_filename (target : String) : Except String String :=
  if target = "aarch64-apple-darwin" then
    Except.ok "libtree-sitter-parsers-all-macos-aarch64.a"
  else if target = "x86_64-apple-darwin" then
    Except.ok "libtree-sitter-parsers-all-macos-x86_64.a"
  else if target = "aarch64-unknown-linux-gnu" then
    Except.ok "libtree-sitter-parsers-all-linux-aarch64-glibc.a"
  else if target = "x86_64-unknown-linux-gnu" then
    Except.ok "libtree-sitter-parsers-all-linux-x86_64-glibc.a"
  else if target = "aarch64-unknown-linux-musl" then
    Except.ok "libtree-sitter-parsers-all-linux-aarch64-musl.a"
  else if target = "x86_64-unknown-linux-musl" then
    Except.ok "libtree-sitter-parsers-all-linux-x86_64-musl.a"
  else if target = "aarch64-pc-windows-gnu" then
    Except.ok "libtree-sitter-parsers-all-windows-aarch64.a"
  else if target = "x86_64-pc-windows-gnu" then
    Except.ok "libtree-sitter-parsers-all-windows-x86_64.a"
  else
    Except.error (unsupportedMsg target)

/-- Environment of `get_validation_library_path`: the resolved target
triple (after the TARGET/HOST fallback), the dist directory path
(`current_dir.parent/dist`), and the filesystem-existence facts the
function consults. -/
structure LocEnv where
  target : String
  dist_dir : String
  distDirExists : Bool
  fileExists : String → Bool

/-- `get_validation_library_path` (build.rs lines 13-55): first the dist-
directory existence check, then the target-triple match, then the
existence check on the joined library path. -/
def get_validation_library_path (env : LocEnv) : Except String String :=
  if env.distDirExists = false then
    Except.error distNotFoundMsg
  else
    match expected_filename env.target with
    | Except.error e => Except.error e
    | Except.ok fname =>
      let lib_path := env.dist_dir ++ "/" ++ fname
      if env.fileExists lib_path then
        Except.ok lib_path
      else
        Except.error ("Validation: Library " ++ fname ++ " not found in " ++ env.dist_dir)

/-! ### Metadata filter (build.rs lines 110-114) -/

/-- The allow-list literal of build.rs line 113. -/
def validation_subset : List String := ["c", "python", "javascript", "rust", "go"]

/-- The filter of build.rs lines 111-114:
`grammars.into_iter().filter(|g| [...].contains(&g.name.as_str())).collect()`. -/
def filter_test_grammars (grammars : List Grammar) : List Grammar :=
  grammars.filter (fun g => validation_subset.contains g.name)

/-! ### Binding generator (`generate_bindings`, build.rs lines 123-190) -/

/-- Embedding of Rust `s.replace("-", "_")`: with a one-character
pattern this is the character map sending `-` to `_`. -/
def replace_dashes (s : String) : String :=
  String.mk (s.data.map (fun c => if c = '-' then '_' else c))

/-- Symbol-name derivation of build.rs lines 133-139 (repeated verbatim at
lines 150-156): `symbol_name` override first, then the `csharp` special
case, then `name.replace("-", "_")`. -/
def fn_name (g : Grammar) : String :=
  match g.symbol_name with
  | some symbol => symbol
  | none =>
    if g.name = "csharp" then "c_sharp"
    else replace_dashes g.name

/-- `let const_name = grammar.name.to_uppercase()` (build.rs line 157). -/
def const_name (g : Grammar) : String := g.name.toUpper

/-- One extern declaration line (build.rs lines 140-143). -/
def decl_line (g : Grammar) : String :=
  "unsafe extern \"C\" \x7b fn tree_sitter_" ++ fn_name g ++ "() -> *const (); \x7d\n"

/-- One `LanguageFn` constant line (build.rs lines 158-161). -/
def const_line (g : Grammar) : String :=
  "pub const " ++ const_name g ++ "_LANGUAGE: LanguageFn = unsafe \x7b LanguageFn::from_raw(tree_sitter_" ++ fn_name g ++ ") \x7d;\n"

/-- One match arm of the generated `load_grammar` (build.rs lines 171-174). -/
def arm_line (g : Grammar) : String :=
  "        \"" ++ g.name ++ "\" => Some(" ++ const_name g ++ "_LANGUAGE.into()),\n"

/-- One entry of the generated `available_grammars` listing
(build.rs line 184). -/
def listing_line (g : Grammar) : String :=
  "        \"" ++ g.name ++ "\",\n"

/-- The full generated source text accumulated in `bindings`
(build.rs lines 125-187), fragment by fragment in source order. -/
def bindings_text (compiled_grammars : List Grammar) : String :=
  "// Auto-generated validation grammar bindings\n\n"
  ++ "use tree_sitter::Language;\n"
  ++ "use tree_sitter_language::LanguageFn;\n\n"
  ++ String.join (compiled_grammars.map decl_line)
  ++ "\n"
  ++ String.join (compiled_grammars.map const_line)
  ++ "\n"
  ++ "pub fn load_grammar(name: &str) -> Option<Language> \x7b\n"
  ++ "    match name \x7b\n"
  ++ String.join (compiled_grammars.map arm_line)
  ++ "        _ => None,\n"
  ++ "    \x7d\n"
  ++ "\x7d\n\n"
  ++ "pub fn available_grammars() -> &\x27static [&\x27static str] \x7b\n"
  ++ "    &[\n"
  ++ String.join (compiled_grammars.map listing_line)
  ++ "    ]\n"
  ++ "\x7d\n"

/-- `generate_bindings` (build.rs lines 123-190): writes `bindings_text`
to `out_path/grammars.rs`; modelled as returning the (path, content)
pair that `fs::write` receives. -/
def generate_bindings (out_path : String) (compiled_grammars : List Grammar) : String × String :=
  (out_path ++ "/grammars.rs", bindings_text compiled_grammars)

/-! ### Semantics of the generated binding surface

The generated `load_grammar` is a `match` over the grammar names in
subset order (first matching arm wins, `_ => None`); each arm returns
`Some(<NAME>_LANGUAGE.into())`.  We model the returned handle by the
name of the constant the arm reads.  The generated
`available_grammars` is the literal list of names in subset order. -/

/-- Semantics of the generated `available_grammars` (build.rs lines 181-187). -/
def available_grammars (compiled_grammars : List Grammar) : List String :=
  compiled_grammars.map Grammar.name

/-- Semantics of the generated `load_grammar` (build.rs lines 165-179):
first arm whose literal equals `name` yields `Some` of its constant,
the `_` arm yields `None`. -/
def load_grammar (compiled_grammars : List Grammar) (name : String) : Option String :=
  match compiled_grammars.find? (fun g => g.name == name) with
  | some g => some (const_name g ++ "_LANGUAGE")
  | none => none

/-! ### Runtime harness (`src/main.rs`) -/

/-- `tree.root_node().has_error()` is the only fact about a parse tree
the harness reads. -/
structure Tree where
  root_has_error : Bool

/-- Behaviour of one loaded `tree_sitter::Language` handle, as observed
by `test_language`: its `node_kind_count()`, whether
`parser.set_language` fails (and its error display), and the outcome of
`parser.parse` on a given text. -/
structure Language where
  node_kind_count : Nat
  set_language_err : Option String
  parse : String → Option Tree

/-- The runtime environment of `main`: the compiled-in
`available_grammars()` listing and the compiled-in `load_grammar`
dispatch together with the FFI behaviour of each loaded handle. -/
structure HarnessEnv where
  grammars : List String
  load : String → Option Language

/-- The fixture table `test_cases` of main.rs lines 14-20, verbatim. -/
def test_cases : List (String × String) :=
  [("c", "int main() \x7b return 0; \x7d"),
   ("python", "def hello():\n    pass"),
   ("javascript", "function hello() \x7b return 42; \x7d"),
   ("rust", "fn main() \x7b println!(\"Hello\"); \x7d"),
   ("go", "func main() \x7b fmt.Println(\"Hello\") \x7d")]

/-- `test_language` (main.rs lines 50-79): load, node-kind sanity check,
then the parse probe when a fixture exists for the name.  `Except.ok`
carries the Pass detail string, `Except.error` the Fail reason. -/
def test_language (env : HarnessEnv) (lang_name : String)
    (cases : List (String × String)) : Except String String :=
  match env.load lang_name with
  | none => Except.error "Failed to load grammar"
  | some language =>
    if language.node_kind_count = 0 then
      Except.error "Invalid language (0 node kinds)"
    else
      match cases.find? (fun tc => tc.1 == lang_name) with
      | some tc =>
        match language.set_language_err with
        | some e => Except.error ("Failed to set language: " ++ e)
        | none =>
          match language.parse tc.2 with
          | none => Except.error "Failed to parse test code"
          | some tree =>
            if tree.root_has_error then
              Except.error "Parse tree has errors"
            else
              Except.ok ("(nodes: " ++ toString language.node_kind_count
                ++ ", parsed: " ++ toString tc.2.utf8ByteSize ++ " chars)")
      | none =>
        Except.ok ("(nodes: " ++ toString language.node_kind_count ++ ")")

/-- The per-grammar report of `main`'s loop (main.rs lines 22-34): one
(name, outcome) pair per entry of the listing, in listing order. -/
def run_results (env : HarnessEnv) : List (String × Except String String) :=
  env.grammars.map (fun l => (l, test_language env l test_cases))

/-- The `all_passed` flag of `main` (main.rs lines 11, 29-32): starts
`true`, is set to `false` by every `Err` outcome, never reset. -/
def harness_all_passed (env : HarnessEnv) : Bool :=
  env.grammars.foldl
    (fun acc l =>
      match test_language env l test_cases with
      | Except.ok _ => acc
      | Except.error _ => false)
    true

/-- The process exit status chosen at main.rs lines 37-47:
`exit(0)` when `all_passed`, else `exit(1)`. -/
def main_exit (env : HarnessEnv) : Nat :=
  if harness_all_passed env then 0 else 1

/-! ## Theorems -/

/-- Helper: `test_language` reads the environment only through
`env.load lang_name`; two environments that agree there give the same
outcome for that grammar. -/
theorem test_language_congr (env1 env2 : HarnessEnv) (lang_name : String)
    (cases : List (String × String)) (h : env1.load lang_name = env2.load lang_name) :
    test_language env1 lang_name cases = test_language env2 lang_name cases := by
  unfold test_language
  rw [h]

/-- C2: symbol-name derivation follows the precedence
override > csharp special case > dash-to-underscore rewrite, and maps
an override-free "go" to "go" unchanged. -/
theorem c2_symbol_derivation (g : Grammar) :
    (∀ s, g.symbol_name = some s → fn_name g = s)
    ∧ (g.symbol_name = none → g.name = "csharp" → fn_name g = "c_sharp")
    ∧ (g.symbol_name = none → g.name ≠ "csharp" → fn_name g = replace_dashes g.name)
    ∧ fn_name ⟨"go", none⟩ = "go" := by
  refine ⟨?_, ?_, ?_, ?_⟩
  · intro s h
    simp [fn_name, h]
  · intro h h2
    simp [fn_name, h, h2]
  · intro h h2
    simp [fn_name, h, h2]
  · decide

/-- Witness for C2 at the three concrete descriptors named by the spec. -/
theorem c2_symbol_derivation_witness :
    fn_name ⟨"c", some "c"⟩ = "c"
    ∧ fn_name ⟨"csharp", none⟩ = "c_sharp"
    ∧ fn_name ⟨"tree-sitter", none⟩ = replace_dashes "tree-sitter" :=
  ⟨(c2_symbol_derivation ⟨"c", some "c"⟩).1 "c" rfl,
   (c2_symbol_derivation ⟨"csharp", none⟩).2.1 rfl rfl,
   (c2_symbol_derivation ⟨"tree-sitter", none⟩).2.2.1 rfl (by decide)⟩

/-- C8: the generated source text is a function of the descriptor list
alone — independent of the output path, and byte-identical across two
runs on the same list. -/
theorem c8_generator_deterministic (p1 p2 : String) (gs1 gs2 : List Grammar)
    (h : gs1 = gs2) :
    (generate_bindings p1 gs1).2 = (generate_bindings p2 gs2).2 := by
  subst h
  rfl

/-- Witness for C8 on a concrete descriptor list and two output paths. -/
theorem c8_generator_deterministic_witness :
    (generate_bindings "outA" [⟨"c", none⟩, ⟨"go", none⟩]).2
      = (generate_bindings "outB" [⟨"c", none⟩, ⟨"go", none⟩]).2 :=
  c8_generator_deterministic "outA" "outB" _ _ rfl

/-- C9: the metadata filter keeps exactly the descriptors whose name is
in the five-element allow-list, as a sublist of the input (source order
preserved, no reordering, no additions) with multiplicities intact. -/
theorem c9_metadata_filter (gs : List Grammar) :
    (filter_test_grammars gs).Sublist gs
    ∧ (∀ g, g ∈ filter_test_grammars gs ↔ g ∈ gs ∧ g.name ∈ validation_subset)
    ∧ (∀ g : Grammar, g.name ∈ validation_subset →
        (filter_test_grammars gs).count g = gs.count g) := by
  refine ⟨List.filter_sublist gs, ?_, ?_⟩
  · intro g
    simp [filter_test_grammars, List.mem_filter]
  · intro g hg
    unfold filter_test_grammars
    rw [List.count_filter]
    simp [validation_subset] at hg
    rcases hg with h | h | h | h | h <;> simp [validation_subset, h]

/-- Witness for C9 on a concrete sidecar list: the allow-listed
descriptor is kept, with its multiplicity. -/
theorem c9_metadata_filter_witness :
    ((⟨"c", none⟩ : Grammar) ∈ filter_test_grammars [⟨"c", none⟩, ⟨"zig", none⟩])
    ∧ (filter_test_grammars [⟨"c", none⟩, ⟨"zig", none⟩]).count ⟨"c", none⟩
        = ([⟨"c", none⟩, ⟨"zig", none⟩] : List Grammar).count ⟨"c", none⟩ :=
  ⟨((c9_metadata_filter [⟨"c", none⟩, ⟨"zig", none⟩]).2.1 ⟨"c", none⟩).mpr
      ⟨by decide, by decide⟩,
   (c9_metadata_filter [⟨"c", none⟩, ⟨"zig", none⟩]).2.2 ⟨"c", none⟩ (by decide)⟩

/-- C1: a name is in the generated available-grammars listing exactly
when the generated `load_grammar` returns `some` handle for it, and a
name outside the listing always gets `none` (the generated function is
total — there is no error case to return). -/
theorem c1_roundtrip (gs : List Grammar) (name : String) :
    (name ∈ available_grammars gs ↔ (load_grammar gs name).isSome)
    ∧ (name ∉ available_grammars gs → load_grammar gs name = none) := by
  have key : (load_grammar gs name).isSome = true ↔ name ∈ available_grammars gs := by
    unfold load_grammar available_grammars
    cases h : gs.find? (fun g => g.name == name) with
    | some g =>
      have hmem := List.mem_of_find?_eq_some h
      have hname : g.name = name := by
        simpa using List.find?_some h
      simp only [Option.isSome_some, true_iff]
      exact hname ▸ List.mem_map_of_mem Grammar.name hmem
    | none =>
      simp only [Option.isSome_none]
      constructor
      · intro hfalse
        simp at hfalse
      · intro hmem
        rcases List.mem_map.mp hmem with ⟨g, hg, rfl⟩
        have hno := List.find?_eq_none.mp h g hg
        simp at hno
  refine ⟨key.symm, ?_⟩
  intro hnot
  cases h : load_grammar gs name with
  | none => rfl
  | some s =>
    exact absurd (key.mp (by simp [h])) hnot

/-- Witness for C1: "zig" is absent from the listing for a concrete
descriptor list and `load_grammar` returns `none` on it. -/
theorem c1_roundtrip_witness :
    load_grammar [⟨"c", none⟩, ⟨"go", none⟩] "zig" = none :=
  (c1_roundtrip [⟨"c", none⟩, ⟨"go", none⟩] "zig").2 (by decide)

/-- Helper: on a target outside the supported set, the triple match
falls through to its `_` arm. -/
theorem expected_filename_unsupported (t : String) (h : t ∉ supportedTargets) :
    expected_filename t = Except.error (unsupportedMsg t) := by
  simp only [supportedTargets, List.mem_cons, List.not_mem_nil, or_false, not_or] at h
  obtain ⟨h1, h2, h3, h4, h5, h6, h7, h8⟩ := h
  simp [expected_filename, h1, h2, h3, h4, h5, h6, h7, h8]

/-- Helper: the dist-missing message never coincides with an
unsupported-target message (they differ at their first character). -/
theorem distNotFoundMsg_ne_unsupportedMsg (t : String) :
    distNotFoundMsg ≠ unsupportedMsg t := by
  intro h
  have h2 : distNotFoundMsg.data.head? = (unsupportedMsg t).data.head? := by rw [h]
  have h3 : (unsupportedMsg t).data.head? = some 'U' := by
    cases t with
    | mk l => rfl
  rw [h3] at h2
  simp [distNotFoundMsg] at h2

/-- C3: the target-to-filename mapping sends each of the eight
supported triples to exactly one archive filename, and any other triple
to the `UnsupportedTarget` error; on such a triple the locator never
returns a path, whatever the filesystem looks like. -/
theorem c3_target_mapping (t : String) :
    (t ∈ supportedTargets → ∃! f, expected_filename t = Except.ok f)
    ∧ (t ∉ supportedTargets →
        expected_filename t = Except.error (unsupportedMsg t)
        ∧ ∀ (env : LocEnv), env.target = t →
            ∀ p, get_validation_library_path env ≠ Except.ok p) := by
  constructor
  · intro hmem
    have hok : ∃ f, expected_filename t = Except.ok f := by
      simp only [supportedTargets, List.mem_cons, List.not_mem_nil, or_false] at hmem
      rcases hmem with rfl | rfl | rfl | rfl | rfl | rfl | rfl | rfl <;>
        exact ⟨_, rfl⟩
    rcases hok with ⟨f, hf⟩
    refine ⟨f, hf, ?_⟩
    intro f2 hf2
    rw [hf] at hf2
    injection hf2 with h
    exact h.symm
  · intro hmem
    have herr := expected_filename_unsupported t hmem
    refine ⟨herr, ?_⟩
    intro env htgt p hok
    unfold get_validation_library_path at hok
    by_cases hd : env.distDirExists = false
    · rw [if_pos hd] at hok
      exact Except.noConfusion hok
    · rw [if_neg hd, htgt, herr] at hok
      exact Except.noConfusion hok

/-- Witness for C3 at one supported and one unsupported triple, with a
concrete locator environment. -/
theorem c3_target_mapping_witness :
    (∃! f, expected_filename "aarch64-apple-darwin" = Except.ok f)
    ∧ expected_filename "wasm32-wasi" = Except.error (unsupportedMsg "wasm32-wasi")
    ∧ get_validation_library_path ⟨"wasm32-wasi", "dist", true, fun _ => true⟩
        ≠ Except.ok "dist/whatever.a" :=
  ⟨(c3_target_mapping "aarch64-apple-darwin").1 (by decide),
   ((c3_target_mapping "wasm32-wasi").2 (by decide)).1,
   ((c3_target_mapping "wasm32-wasi").2 (by decide)).2
     ⟨"wasm32-wasi", "dist", true, fun _ => true⟩ rfl "dist/whatever.a"⟩

/-- C10: the dist-directory existence check precedes the triple match —
an absent dist directory yields the artifacts-missing error for every
target, supported or not, and an `UnsupportedTarget` error can only be
observed when the dist directory exists. -/
theorem c10_dist_check_first (env : LocEnv) :
    (env.distDirExists = false →
      get_validation_library_path env = Except.error distNotFoundMsg)
    ∧ (∀ t, get_validation_library_path env = Except.error (unsupportedMsg t) →
        env.distDirExists = true) := by
  constructor
  · intro hd
    unfold get_validation_library_path
    rw [if_pos hd]
  · intro t hres
    by_cases hd : env.distDirExists = false
    · exfalso
      unfold get_validation_library_path at hres
      rw [if_pos hd] at hres
      have : distNotFoundMsg = unsupportedMsg t := by injection hres
      exact distNotFoundMsg_ne_unsupportedMsg t this
    · simpa using hd

/-- Witness for C10: a concrete environment with the dist directory
absent and an unsupported target still reports the artifacts-missing
error. -/
theorem c10_dist_check_first_witness :
    get_validation_library_path ⟨"wasm32-unknown-unknown", "dist", false, fun _ => true⟩
      = Except.error distNotFoundMsg :=
  (c10_dist_check_first ⟨"wasm32-unknown-unknown", "dist", false, fun _ => true⟩).1 rfl

/-- Helper: `main`'s loop accumulator equals the conjunction of the
per-grammar `isOk` flags, whatever value it starts from. -/
theorem foldl_all_passed (env : HarnessEnv) (ls : List String) (b : Bool) :
    ls.foldl
      (fun acc l =>
        match test_language env l test_cases with
        | Except.ok _ => acc
        | Except.error _ => false)
      b
    = (b && ls.all (fun l => (test_language env l test_cases).isOk)) := by
  induction ls generalizing b with
  | nil => simp
  | cons x xs ih =>
    simp only [List.foldl_cons, List.all_cons]
    rw [ih]
    cases h : test_language env x test_cases with
    | ok d => simp [h, Except.isOk, Except.toBool]
    | error e => simp [h, Except.isOk, Except.toBool]

/-- C4: the harness reports one outcome per listed grammar (no
short-circuit), and the exit status is 0 exactly when every outcome is
Pass, 1 in every other case. -/
theorem c4_aggregation (env : HarnessEnv) :
    (run_results env).map Prod.fst = env.grammars
    ∧ (main_exit env = 0 ↔
        ∀ l ∈ env.grammars, (test_language env l test_cases).isOk = true)
    ∧ (main_exit env = 0 ∨ main_exit env = 1) := by
  refine ⟨?_, ?_, ?_⟩
  · unfold run_results
    induction env.grammars with
    | nil => rfl
    | cons x xs ih => simpa using ih
  · unfold main_exit harness_all_passed
    rw [foldl_all_passed env env.grammars true, Bool.true_and]
    split
    next hall => simpa using List.all_eq_true.mp hall
    next hall =>
      constructor
      · intro h
        exact absurd h (by decide)
      · intro hforall
        exact absurd (List.all_eq_true.mpr hforall) hall
  · unfold main_exit
    split
    · exact Or.inl rfl
    · exact Or.inr rfl

/-- Witness for C4: a one-grammar environment whose grammar passes has
exit status 0. -/
theorem c4_aggregation_witness :
    main_exit ⟨["m"], fun _ => some ⟨5, none, fun _ => none⟩⟩ = 0 :=
  (c4_aggregation ⟨["m"], fun _ => some ⟨5, none, fun _ => none⟩⟩).2.1.mpr (by decide)

/-- C5: a loaded handle with zero node kinds makes that grammar fail
with the invalid-grammar reason, for any fixture table and any parse
behaviour — the parse probe is never consulted. -/
theorem c5_invalid_grammar (env : HarnessEnv) (lang_name : String)
    (cases : List (String × String)) (language : Language)
    (hload : env.load lang_name = some language)
    (hzero : language.node_kind_count = 0) :
    test_language env lang_name cases = Except.error "Invalid language (0 node kinds)" := by
  unfold test_language
  rw [hload]
  simp [hzero]

/-- Witness for C5 on a concrete zero-node-kind handle. -/
theorem c5_invalid_grammar_witness :
    test_language ⟨["c"], fun _ => some ⟨0, none, fun _ => none⟩⟩ "c" test_cases
      = Except.error "Invalid language (0 node kinds)" :=
  c5_invalid_grammar ⟨["c"], fun _ => some ⟨0, none, fun _ => none⟩⟩ "c" test_cases
    ⟨0, none, fun _ => none⟩ rfl rfl

/-- C6: when the probe parses the fixture into a tree whose root is
flagged with errors, that grammar fails with the parse-tree-has-errors
reason; and an environment differing only at that grammar leaves every
other grammar's outcome unchanged. -/
theorem c6_parse_tree_errors (env : HarnessEnv) (lang_name : String)
    (cases : List (String × String)) (language : Language)
    (tc : String × String) (tree : Tree)
    (hload : env.load lang_name = some language)
    (hnz : language.node_kind_count ≠ 0)
    (hfind : cases.find? (fun p => p.1 == lang_name) = some tc)
    (hset : language.set_language_err = none)
    (hparse : language.parse tc.2 = some tree)
    (herr : tree.root_has_error = true) :
    test_language env lang_name cases = Except.error "Parse tree has errors"
    ∧ ∀ (env2 : HarnessEnv),
        (∀ other, other ≠ lang_name → env2.load other = env.load other) →
        ∀ other, other ≠ lang_name →
          test_language env2 other cases = test_language env other cases := by
  constructor
  · unfold test_language
    rw [hload]
    simp [hnz, hfind, hset, hparse, herr]
  · intro env2 hagree other hne
    exact test_language_congr env2 env other cases (hagree other hne)

/-- Witness for C6 on a concrete handle whose parse tree root is
flagged with an error. -/
theorem c6_parse_tree_errors_witness :
    test_language ⟨["c"], fun _ => some ⟨3, none, fun _ => some ⟨true⟩⟩⟩ "c" test_cases
      = Except.error "Parse tree has errors" :=
  (c6_parse_tree_errors ⟨["c"], fun _ => some ⟨3, none, fun _ => some ⟨true⟩⟩⟩ "c"
    test_cases ⟨3, none, fun _ => some ⟨true⟩⟩
    ("c", "int main() \x7b return 0; \x7d") ⟨true⟩
    rfl (by decide) rfl rfl rfl rfl).1

/-- C7: a grammar with no fixture entry skips the parse probe and
passes on the sanity check alone, with the node-kind count as its whole
Pass detail. -/
theorem c7_no_fixture_pass (env : HarnessEnv) (lang_name : String) (language : Language)
    (hload : env.load lang_name = some language)
    (hnz : language.node_kind_count ≠ 0)
    (hnofix : lang_name ∉ test_cases.map Prod.fst) :
    test_language env lang_name test_cases
      = Except.ok ("(nodes: " ++ toString language.node_kind_count ++ ")") := by
  unfold test_language
  rw [hload]
  have hfind : test_cases.find? (fun tc => tc.1 == lang_name) = none := by
    rw [List.find?_eq_none]
    intro tc htc
    simp only [beq_iff_eq]
    intro heq
    exact hnofix (heq ▸ List.mem_map_of_mem Prod.fst htc)
  simp [hnz, hfind]

/-- Witness for C7: "lua" has no fixture and passes with the node-kind
count alone. -/
theorem c7_no_fixture_pass_witness :
    test_language ⟨["lua"], fun _ => some ⟨7, none, fun _ => none⟩⟩ "lua" test_cases
      = Except.ok ("(nodes: " ++ toString 7 ++ ")") :=
  c7_no_fixture_pass ⟨["lua"], fun _ => some ⟨7, none, fun _ => none⟩⟩ "lua"
    ⟨7, none, fun _ => none⟩ rfl (by decide) (by decide)

end Breeze
